import Mathlib

/-!
Shallow embedding of the mijiamon telemetry pipeline (Go, `main.go`).

The repository holds two historical variants of the program in one file:
an active-polling version (`Sensor.poll`, `readTemperatureAndHumidity`,
`readBatteryLevel`) and the current passive-listening version
(`processAdvLYWSD03MMC`, `processAdvLYWSDCGQ`, `sensor.processAdv`,
`sensor.flush`, `advHandler`, `advFilter`, the flush goroutine in `main`).

Bytes are modelled as `Fin 256` (Go `byte`), field values as `ℚ`
(Go `float64` arithmetic here is exact decimal scaling), times as `ℕ`.
A Go runtime panic (index out of range, nil dereference) is modelled as
`Option.none` / a dedicated constructor, distinct from an error value
returned to the caller.
-/

namespace Mijiamon

/-- A Go `byte`. -/
abbrev Byte := Fin 256

/-- Go `binary.LittleEndian.Uint16(b[i:i+2])`: low byte first. -/
def uint16LE (lo hi : Byte) : ℕ := lo.val + 256 * hi.val

/-- Go `int16(x)` reinterpretation of an unsigned 16-bit value. -/
def int16OfNat (x : ℕ) : ℤ := if x < 32768 then (x : ℤ) else (x : ℤ) - 65536

/-- The field sets the two decoders produce (Go `type Data map[string]interface{}`;
the program only ever stores the keys "temperature", "humidity", "battery_pct",
so the map is embedded as one optional slot per key). -/
structure Data where
  temperature : Option ℚ
  humidity : Option ℚ
  battery_pct : Option ℤ
deriving DecidableEq, Repr

/-- Go `make(Data)`: the empty field set. -/
def emptyData : Data := { temperature := none, humidity := none, battery_pct := none }

/-- Go `len(fields)`: the number of keys present. -/
def Data.size (d : Data) : ℕ :=
  (if d.temperature.isSome then 1 else 0) +
    (if d.humidity.isSome then 1 else 0) +
    (if d.battery_pct.isSome then 1 else 0)

/-- The merge loop of `sensor.processAdv`:
`for k, v := range incoming { s.data[k] = v }` — keys present in the
incoming set overwrite, absent keys leave the stored value alone. -/
def mergeData (old incoming : Data) : Data :=
  { temperature := match incoming.temperature with
      | some v => some v
      | none => old.temperature,
    humidity := match incoming.humidity with
      | some v => some v
      | none => old.humidity,
    battery_pct := match incoming.battery_pct with
      | some v => some v
      | none => old.battery_pct }

/-- Go `sensor.flush`: copy the current map out, reset the stored map to empty.
First component is the returned snapshot, second the new stored state. -/
def flush (d : Data) : Data × Data := (d, emptyData)

/-- Go `processAdvLYWSD03MMC` (Variant A, pvvx ATC_MiThermometer layout):
only a 15-byte payload decodes; anything else yields the empty set.
Indexing is guarded by the length test, so this decoder is total. -/
def processAdvLYWSD03MMC (b : List Byte) : Data :=
  if b.length = 15 then
    { temperature := some (mkRat (int16OfNat (uint16LE (b.getD 6 0) (b.getD 7 0))) 100),
      humidity := some (mkRat (uint16LE (b.getD 8 0) (b.getD 9 0)) 100),
      battery_pct := some ((b.getD 12 0).val : ℤ) }
  else emptyData

/-- Go `processAdvLYWSDCGQ` (Variant B, vendor service-data sub-messages):
`switch int(b[13])` then, for `0x01`, `b[14]`; for `0x04`, `b[14:16]` and
`b[16:18]`. The Go code performs no bounds check, so a payload too short
for any of these accesses panics at runtime — modelled as `none`.
`some` is a normally returned field set. -/
def processAdvLYWSDCGQ (b : List Byte) : Option Data :=
  match b[13]? with
  | none => none
  | some disc =>
    if disc.val = 0x01 then
      match b[14]? with
      | none => none
      | some v => some { emptyData with battery_pct := some (v.val : ℤ) }
    else if disc.val = 0x04 then
      if 18 ≤ b.length then
        some { emptyData with
          temperature :=
            some (mkRat (int16OfNat (uint16LE (b.getD 14 0) (b.getD 15 0))) 10),
          humidity := some (mkRat (uint16LE (b.getD 16 0) (b.getD 17 0)) 10) }
      else none
    else some emptyData

/-! Section: active-poll notification parsing (`readTemperatureAndHumidity`). -/

/-- The NUL character trimmed by `strings.Trim(string(req), "\x00")`. -/
def nulChar : Char := Char.ofNat 0

/-- Go `strings.Split(data, sep)` for a one-character separator: splits at every
occurrence, keeping empty segments, and yields `[""]` on empty input. -/
def splitOnSep (sep : Char) : List Char → List (List Char)
  | [] => [[]]
  | c :: rest =>
    match splitOnSep sep rest with
    | [] => [[]]
    | g :: gs => if c = sep then [] :: g :: gs else (c :: g) :: gs

/-- Go `strings.Trim(s, "\x00")`: drop NUL characters from both ends. -/
def trimNul (cs : List Char) : List Char :=
  ((cs.dropWhile (· = nulChar)).reverse.dropWhile (· = nulChar)).reverse

/-- Value of a digit string, most significant first. -/
def digitsVal (cs : List Char) : ℕ := cs.foldl (fun a c => 10 * a + (c.toNat - 48)) 0

/-- The plain-decimal fragment of Go's `strconv.ParseFloat` (an external
standard-library collaborator, not repository code): optional sign, then
decimal digits with at most one point and at least one digit. All payload
values the program meets are of this shape; exotic accepted forms
(exponents, hex floats, infinities) are outside the claims' scope. -/
def parseFloat (s : List Char) : Option ℚ :=
  let signedBody : Bool × List Char :=
    match s with
    | '-' :: r => (true, r)
    | '+' :: r => (false, r)
    | _ => (false, s)
  let applySign : ℚ → ℚ := fun q => if signedBody.1 then -q else q
  match splitOnSep '.' signedBody.2 with
  | [ip] =>
    if ip ≠ [] ∧ ip.all Char.isDigit then some (applySign (mkRat (digitsVal ip) 1))
    else none
  | [ip, fp] =>
    if (ip ≠ [] ∨ fp ≠ []) ∧ ip.all Char.isDigit ∧ fp.all Char.isDigit then
      some (applySign
        (mkRat (digitsVal ip * 10 ^ fp.length + digitsVal fp) (10 ^ fp.length)))
    else none
  | _ => none

/-- Outcome of the notification-parsing loop in `readTemperatureAndHumidity`. -/
inductive THResult where
  /-- Go runtime panic: `parts[1]` on a pair with no `=`, or `res[i]` with
  `i ≥ 2` on a payload of more than two pairs. -/
  | crash
  /-- Go `strconv.ParseFloat` failed; the function returns a non-nil error. -/
  | parseFailure
  /-- Normal return: `res[0]` and `res[1]`. -/
  | ok (t h : ℚ)
deriving DecidableEq, Repr

/-- The loop body of `readTemperatureAndHumidity`:
`for i, pair := range pairs { parts := strings.Split(pair, "="); v, err :=
strconv.ParseFloat(parts[1], 64); if err != nil { return res, err }; res[i] = v }`.
`t`/`h` carry `res[0]`/`res[1]` (zero-initialised), `i` the loop index. -/
def readTHLoop : List (List Char) → ℕ → ℚ → ℚ → THResult
  | [], _, t, h => .ok t h
  | p :: rest, i, t, h =>
    match (splitOnSep '=' p)[1]? with
    | none => .crash
    | some vs =>
      match parseFloat vs with
      | none => .parseFailure
      | some v =>
        if i = 0 then readTHLoop rest 1 v h
        else if i = 1 then readTHLoop rest 2 t v
        else .crash

/-- Go `readTemperatureAndHumidity`, given the one received notification payload:
trim NULs, split on spaces, run the parse loop on the pairs. -/
def readTemperatureAndHumidity (req : List Char) : THResult :=
  readTHLoop (splitOnSep ' ' (trimNul req)) 0 0 0

/-! Section: the active poll cycle (`Sensor.poll`). -/

/-- The external effects one poll cycle observes, in program order:
whether `ble.Dial` succeeds, whether `DiscoverProfile` succeeds, the result
of `readBatteryLevel` (`none` = read error), the notification payload
(`none` = timeout waiting), and the wall-clock readings `time.Now()` takes
at the start (line `start := time.Now()`) and at the end of the cycle. -/
structure PollEnv where
  dialOk : Bool
  discoverOk : Bool
  battery : Option ℤ
  notification : Option (List Char)
  startTime : ℕ
  finishTime : ℕ
deriving DecidableEq, Repr

/-- The `Result` struct sent on the results channel and written to the sink. -/
structure Result where
  name : String
  time : ℕ
  temperature : ℚ
  humidity : ℚ
  battery_pct : ℤ
  pollDuration : ℕ
deriving DecidableEq, Repr

/-- Go `Sensor.poll`: each failure (dial, discovery, battery read, notification
timeout, parse failure — and the parser's panic, which kills the process)
logs and returns without sending; on success the `Result` carries
`Time: start` and `PollDuration: time.Now().Sub(start)`. -/
def poll (name : String) (env : PollEnv) : Option Result :=
  if !env.dialOk then none
  else if !env.discoverOk then none
  else
    match env.battery with
    | none => none
    | some pct =>
      match env.notification with
      | none => none
      | some req =>
        match readTemperatureAndHumidity req with
        | .ok t h =>
          some { name := name, time := env.startTime, temperature := t, humidity := h,
                 battery_pct := pct, pollDuration := env.finishTime - env.startTime }
        | _ => none

/-! Section: the flush scheduler tick (passive mode, the ticker goroutine in `main`). -/

/-- An InfluxDB point as built by the flush goroutine: measurement
"environment", tag `name`, the drained fields, `time.Now()`. -/
structure Point where
  name : String
  fields : Data
  time : ℕ
deriving DecidableEq, Repr

/-- One sensor's share of a flush tick:
`fields := s.flush(); if !dryRun && len(fields) > 0 { writeAPI.WritePoint(...) }`.
First component is the point handed to the sink (if any), second the
sensor's accumulator after the drain. -/
def tickSensor (dryRun : Bool) (now : ℕ) (name : String) (d : Data) :
    Option Point × Data :=
  let drained := flush d
  ((if !dryRun && 0 < drained.1.size then some ⟨name, drained.1, now⟩ else none),
   drained.2)

/-! Section: the advertisement listener (`advHandler`, `advFilter`, `ble.Scan`). -/

/-- The configured model tag of a sensor, selecting its decoder. -/
inductive SensorType where
  | lywsd03mmc
  | lywsdcgq
deriving DecidableEq, Repr

/-- Dispatch of `sensor.processor` by configured type
(`"LYWSD03MMC"` and `"LYWSDCGQ/01ZM"` in `main`). -/
def runProcessor : SensorType → List Byte → Option Data
  | .lywsd03mmc, b => some (processAdvLYWSD03MMC b)
  | .lywsdcgq, b => processAdvLYWSDCGQ b

/-- One entry of the global `sensors` map: display name, decoder type,
and the accumulator state `sensor.data`. -/
structure SensorInfo where
  name : String
  stype : SensorType
  data : Data
deriving DecidableEq, Repr

/-- The global `sensors` map, keyed by lower-case radio address. -/
abbrev ScanState := List (String × SensorInfo)

/-- One received advertisement: emitting address and its service-data blocks. -/
structure Adv where
  addr : String
  serviceData : List (List Byte)
deriving DecidableEq, Repr

/-- Go `advFilter`: membership of the advertiser's address in the sensors map. -/
def advFilter (st : ScanState) (a : Adv) : Bool := (st.lookup a.addr).isSome

/-- The handler's loop over `a.ServiceData()`: decode each block and merge it
into the accumulator (`s.processAdv(sd.Data)`), in block order. `none`
propagates a decoder panic. -/
def processBlocks (t : SensorType) (d : Data) : List (List Byte) → Option Data
  | [] => some d
  | sd :: rest =>
    match runProcessor t sd with
    | none => none
    | some inc => processBlocks t (mergeData d inc) rest

/-- In-place update of the (first) entry of the sensors map at `addr`,
as mutation through the map entry's pointer does in Go. -/
def updateSensor (addr : String) (new : SensorInfo) : ScanState → ScanState
  | [] => []
  | (k, v) :: rest =>
    if k = addr then (k, new) :: rest else (k, v) :: updateSensor addr new rest

/-- Go `advHandler`: look the advertiser up in `sensors` and fold its
service-data blocks into that sensor's accumulator. An absent address
means `s` is nil and `s.name` panics (`none`) — unreachable behind
`advFilter`. -/
def advHandler (st : ScanState) (a : Adv) : Option ScanState :=
  match st.lookup a.addr with
  | none => none
  | some info =>
    (processBlocks info.stype info.data a.serviceData).map
      fun d => updateSensor a.addr { info with data := d } st

/-- One step of `ble.Scan`'s delivery: the filter runs first, and only
advertisements it accepts reach `advHandler`; rejected ones leave the
state untouched. -/
def scanStep (st : ScanState) (a : Adv) : Option ScanState :=
  if advFilter st a then advHandler st a else some st

/-! Section: the shared poller lock (`mutex` and the critical section of `Sensor.poll`). -/

/-- Position of one active poller inside `Sensor.poll`'s body. Every stage
other than `idle` lies between `mutex.Lock()` and the deferred
`mutex.Unlock()`. -/
inductive PollerPC where
  | idle
  | dialing
  | discovering
  | readingBattery
  | awaitingNotification
  | disconnecting
deriving DecidableEq, Repr

/-- Whether a poller is inside its poll cycle (past `mutex.Lock()`). -/
def PollerPC.inCycle : PollerPC → Bool
  | .idle => false
  | _ => true

/-- Successor stage inside a successful cycle body. -/
def nextStage : PollerPC → Option PollerPC
  | .dialing => some .discovering
  | .discovering => some .readingBattery
  | .readingBattery => some .awaitingNotification
  | .awaitingNotification => some .disconnecting
  | _ => none

/-- The whole process: who (if anyone) holds `mutex`, and where each of the
`n` poller goroutines stands. -/
structure PollerSys (n : ℕ) where
  lockOwner : Option (Fin n)
  pc : Fin n → PollerPC

/-- Process start: lock free, every poller outside its cycle. -/
def startSys (n : ℕ) : PollerSys n :=
  { lockOwner := none, pc := fun _ => .idle }

/-- Interleaving semantics of the poller goroutines against `mutex`:
`acquire` is `mutex.Lock()` (only when the lock is free), `advance` moves
through the cycle body (only while holding the lock), `release` is the
deferred `mutex.Unlock()` on any return path — normal completion or an
early error return from any stage. -/
inductive PollerStep (n : ℕ) : PollerSys n → PollerSys n → Prop where
  | acquire (s : PollerSys n) (i : Fin n) :
      s.lockOwner = none → s.pc i = .idle →
      PollerStep n s ⟨some i, Function.update s.pc i .dialing⟩
  | advance (s : PollerSys n) (i : Fin n) (next : PollerPC) :
      s.lockOwner = some i → nextStage (s.pc i) = some next →
      PollerStep n s ⟨some i, Function.update s.pc i next⟩
  | release (s : PollerSys n) (i : Fin n) :
      s.lockOwner = some i → (s.pc i).inCycle = true →
      PollerStep n s ⟨none, Function.update s.pc i .idle⟩

/-- States the process can reach from start. -/
inductive PollerReachable (n : ℕ) : PollerSys n → Prop where
  | start : PollerReachable n (startSys n)
  | tail {s t : PollerSys n} :
      PollerReachable n s → PollerStep n s t → PollerReachable n t

/-! Section: concrete demonstration inputs used by witnesses. -/

/-- A fully successful poll cycle starting at time 100 and finishing at
time 160, used to test which time the emitted record carries. -/
def pollEnvC3 : PollEnv :=
  { dialOk := true, discoverOk := true, battery := some 50,
    notification := some ("T=1 H=2".toList), startTime := 100, finishTime := 160 }

/-- The demo configuration for the C8 witness: one Variant A sensor at
address `aa`. -/
def demoState : ScanState := [("aa", SensorInfo.mk "room" .lywsd03mmc emptyData)]

/-- A 15-byte Variant A advertisement from the configured address. -/
def demoAdv : Adv := ⟨"aa", [[0, 0, 0, 0, 0, 0, 0x47, 0x09, 0xd0, 0x11, 0, 0, 88, 0, 0]]⟩

/-- The state after `demoAdv` is handled. -/
def demoState2 : ScanState :=
  updateSensor "aa"
    (SensorInfo.mk "room" .lywsd03mmc
      (mergeData emptyData
        (processAdvLYWSD03MMC [0, 0, 0, 0, 0, 0, 0x47, 0x09, 0xd0, 0x11, 0, 0, 88, 0, 0])))
    demoState

/-- Two pollers; poller 0 has just taken the lock and started dialing. -/
def demoPollerState : PollerSys 2 :=
  ⟨some 0, Function.update (startSys 2).pc 0 .dialing⟩

/-! Section: supporting lemmas. -/

/-- Indexing past a prefix of known length lands in the suffix. -/
theorem getElem?_append_offset {α : Type} (pre l : List α) (k : ℕ) :
    (pre ++ l)[pre.length + k]? = l[k]? := by
  rw [List.getElem?_append_right (by omega)]
  congr 1
  omega

/-! Section: claim theorems. -/

/-- C1: the claim says the Variant B decoder is total and returns an empty
field set on payloads too short to index; in fact `processAdvLYWSDCGQ`
indexes `b[13]` with no bounds check, so every payload shorter than 14
bytes panics (Go index out of range), modelled as `none`. -/
theorem variantB_short_payload_panics (b : List Byte) (hb : b.length < 14) :
    processAdvLYWSDCGQ b = none := by
  have h13 : b[13]? = none := by
    rw [List.getElem?_eq_none]
    omega
  simp [processAdvLYWSDCGQ, h13]

/-- Witness: the empty payload makes the Variant B decoder panic instead of
returning the empty field set. -/
theorem variantB_short_payload_panics_witness :
    (List.length (α := Byte) [] < 14) ∧ processAdvLYWSDCGQ [] = none :=
  ⟨by decide, variantB_short_payload_panics [] (by decide)⟩

/-- C2: a 15-byte payload decodes to exactly three fields — temperature =
(signed little-endian 16-bit at offsets 6–7) / 100, humidity = (unsigned
little-endian 16-bit at offsets 8–9) / 100, battery percentage = byte 12 —
and any payload of a different length yields the empty field set. -/
theorem variantA_decode (b0 b1 b2 b3 b4 b5 t0 t1 u0 u1 c10 c11 bat c13 c14 : Byte)
    (b : List Byte) (hb : b.length ≠ 15) :
    processAdvLYWSD03MMC [b0, b1, b2, b3, b4, b5, t0, t1, u0, u1, c10, c11, bat, c13, c14] =
      { temperature := some ((int16OfNat (uint16LE t0 t1) : ℚ) / 100),
        humidity := some ((uint16LE u0 u1 : ℚ) / 100),
        battery_pct := some (bat.val : ℤ) } ∧
    processAdvLYWSD03MMC b = emptyData := by
  constructor
  · simp [processAdvLYWSD03MMC, List.getD, Rat.mkRat_eq_div]
  · simp [processAdvLYWSD03MMC, hb]

/-- Witness for C2: bytes `0x47 0x09` at offset 6 (little-endian `0x0947` =
2375) give temperature 23.75, `0xd0 0x11` give humidity 45.60, byte 12
gives battery 88; the empty payload gives the empty set. -/
theorem variantA_decode_witness :
    processAdvLYWSD03MMC [0, 0, 0, 0, 0, 0, 0x47, 0x09, 0xd0, 0x11, 0, 0, 88, 0, 0] =
      { temperature := some ((int16OfNat (uint16LE 0x47 0x09) : ℚ) / 100),
        humidity := some ((uint16LE 0xd0 0x11 : ℚ) / 100),
        battery_pct := some ((88 : Byte).val : ℤ) } ∧
    processAdvLYWSD03MMC [] = emptyData :=
  variantA_decode 0 0 0 0 0 0 0x47 0x09 0xd0 0x11 0 0 88 0 0 [] (by decide)

/-- The spec example in numbers: little-endian `0x0947` at offset 6 scaled
by 1/100 is 23.75 °C. -/
theorem variantA_example_value :
    ((int16OfNat (uint16LE 0x47 0x09) : ℚ) / 100) = 23.75 := by
  have h1 : uint16LE 0x47 0x09 = 2375 := by decide
  rw [h1]
  norm_num [int16OfNat]

/-- C6: on payloads long enough to index, discriminator byte 13 = `0x01`
yields exactly battery percentage = byte 14; `0x04` yields exactly
temperature = (signed LE 16-bit at 14–15) / 10 and humidity = (unsigned LE
16-bit at 16–17) / 10; any other discriminator yields the empty set. -/
theorem variantB_decode (pre : List Byte) (hpre : pre.length = 13)
    (disc : Byte) (rest : List Byte) :
    (disc.val = 0x01 → ∀ v rest2, rest = v :: rest2 →
      processAdvLYWSDCGQ (pre ++ disc :: rest) =
        some { emptyData with battery_pct := some (v.val : ℤ) }) ∧
    (disc.val = 0x04 → ∀ t0 t1 u0 u1 rest2, rest = t0 :: t1 :: u0 :: u1 :: rest2 →
      processAdvLYWSDCGQ (pre ++ disc :: rest) =
        some { emptyData with
          temperature := some ((int16OfNat (uint16LE t0 t1) : ℚ) / 10),
          humidity := some ((uint16LE u0 u1 : ℚ) / 10) }) ∧
    (disc.val ≠ 0x01 → disc.val ≠ 0x04 →
      processAdvLYWSDCGQ (pre ++ disc :: rest) = some emptyData) := by
  have h13 : (pre ++ disc :: rest)[13]? = some disc := by
    have := getElem?_append_offset pre (disc :: rest) 0
    simpa [hpre] using this
  refine ⟨?_, ?_, ?_⟩
  · rintro h1 v rest2 rfl
    have h14 : (pre ++ disc :: v :: rest2)[14]? = some v := by
      have := getElem?_append_offset pre (disc :: v :: rest2) 1
      simpa [hpre] using this
    simp [processAdvLYWSDCGQ, h13, h14, h1]
  · rintro h4 t0 t1 u0 u1 rest2 rfl
    have hlen : 18 ≤ (pre ++ disc :: t0 :: t1 :: u0 :: u1 :: rest2).length := by
      simp [hpre]
      omega
    have gk : ∀ k, (pre ++ disc :: t0 :: t1 :: u0 :: u1 :: rest2)[13 + k]? =
        (disc :: t0 :: t1 :: u0 :: u1 :: rest2)[k]? := by
      intro k
      have := getElem?_append_offset pre (disc :: t0 :: t1 :: u0 :: u1 :: rest2) k
      rwa [hpre] at this
    have g14 := gk 1
    have g15 := gk 2
    have g16 := gk 3
    have g17 := gk 4
    norm_num at g14 g15 g16 g17
    simp [processAdvLYWSDCGQ, h13, h4, hlen, List.getD_eq_getElem?_getD,
      g14, g15, g16, g17, Rat.mkRat_eq_div]
    omega
  · intro h1 h4
    simp [processAdvLYWSDCGQ, h13, h1, h4]

/-- Witness for C6: concrete 15-, 18- and 15-byte payloads for the three
discriminator cases (`0x01`, `0x04`, other). -/
theorem variantB_decode_witness :
    processAdvLYWSDCGQ (List.replicate 13 0 ++ (1 : Byte) :: [97]) =
      some { emptyData with battery_pct := some ((97 : Byte).val : ℤ) } ∧
    processAdvLYWSDCGQ (List.replicate 13 0 ++ (4 : Byte) :: [0xed, 0x00, 0x2c, 0x02]) =
      some { emptyData with
        temperature := some ((int16OfNat (uint16LE 0xed 0x00) : ℚ) / 10),
        humidity := some ((uint16LE 0x2c 0x02 : ℚ) / 10) } ∧
    processAdvLYWSDCGQ (List.replicate 13 0 ++ (9 : Byte) :: [5]) = some emptyData :=
  ⟨(variantB_decode _ (by decide) 1 _).1 (by decide) 97 [] rfl,
   (variantB_decode _ (by decide) 4 _).2.1 (by decide) 0xed 0x00 0x2c 0x02 [] rfl,
   (variantB_decode _ (by decide) 9 _).2.2 (by decide) (by decide)⟩

/-- C4: merging a field set into a freshly drained accumulator and then
draining returns exactly the merged fields; a second immediate drain
returns the empty set. -/
theorem merge_drain_roundtrip (prior F : Data) :
    (flush (mergeData (flush prior).2 F)).1 = F ∧
    (flush ((flush (mergeData (flush prior).2 F)).2)).1 = emptyData := by
  obtain ⟨t, h, b⟩ := F
  cases t <;> cases h <;> cases b <;> exact ⟨rfl, rfl⟩

/-- C5: an accumulator that received zero merges since its last drain (so
its state is `emptyData`) drains to the empty set and the flush tick hands
nothing to the sink for it; and any point the tick does emit carries a
non-empty field set. -/
theorem empty_drain_suppressed (dryRun : Bool) (now : ℕ) (nm : String) :
    (flush emptyData).1 = emptyData ∧
    (tickSensor dryRun now nm emptyData).1 = none ∧
    ∀ (nm2 : String) (d : Data) (p : Point),
      (tickSensor dryRun now nm2 d).1 = some p → 0 < p.fields.size := by
  refine ⟨rfl, ?_, ?_⟩
  · simp [tickSensor, flush, emptyData, Data.size]
  · intro nm2 d p hp
    simp only [tickSensor] at hp
    split at hp
    · rename_i hcond
      cases hp
      simp only [Bool.and_eq_true, decide_eq_true_eq] at hcond
      simpa using hcond.2
    · cases hp

/-- Witness for C5: in normal (non-dry-run) mode an untouched accumulator
causes no write, while a battery-only snapshot is non-empty. -/
theorem empty_drain_suppressed_witness :
    (tickSensor false 0 "kitchen" emptyData).1 = none ∧
    0 < (Point.mk "kitchen" { emptyData with battery_pct := some 88 } 0).fields.size :=
  ⟨(empty_drain_suppressed false 0 "kitchen").2.1,
   (empty_drain_suppressed false 0 "kitchen").2.2 "kitchen"
     { emptyData with battery_pct := some 88 }
     (Point.mk "kitchen" { emptyData with battery_pct := some 88 } 0) (by decide)⟩

/-- C3 counterexample: the record of a successful cycle carries the cycle's
start time (100), not the completion time (160) the claim names. -/
theorem poll_timestamp_not_completion :
    (poll "bedroom" pollEnvC3).map Result.time = some pollEnvC3.startTime ∧
    pollEnvC3.startTime ≠ pollEnvC3.finishTime := by
  constructor
  · decide
  · decide

/-- C3 amended: the record of a successful cycle carries as its timestamp
the time at which the cycle began (`start := time.Now()` right after the
lock is taken), and the elapsed duration finish − start alongside it. -/
theorem poll_timestamp_is_start (name : String) (env : PollEnv) (r : Result)
    (h : poll name env = some r) :
    r.time = env.startTime ∧ r.pollDuration = env.finishTime - env.startTime := by
  unfold poll at h
  repeat' split at h
  all_goals cases h
  exact ⟨rfl, rfl⟩

/-- Witness for the C3 amended claim at the concrete cycle `pollEnvC3`. -/
theorem poll_timestamp_is_start_witness :
    ({ name := "bedroom", time := 100, temperature := mkRat 1 1, humidity := mkRat 2 1,
       battery_pct := 50, pollDuration := 60 } : Result).time = pollEnvC3.startTime ∧
    ({ name := "bedroom", time := 100, temperature := mkRat 1 1, humidity := mkRat 2 1,
       battery_pct := 50, pollDuration := 60 } : Result).pollDuration =
      pollEnvC3.finishTime - pollEnvC3.startTime :=
  poll_timestamp_is_start "bedroom" pollEnvC3 _ (by decide)

/-- C7: if the received notification has a value field that fails to parse,
the cycle ends in an error and no record is emitted; and the example
payload parses to temperature 23.7, humidity 55.2. -/
theorem parse_failure_aborts_poll (name : String) (env : PollEnv) (req : List Char)
    (hreq : env.notification = some req)
    (hfail : readTemperatureAndHumidity req = .parseFailure) :
    poll name env = none ∧
    readTemperatureAndHumidity ("T=23.7 H=55.2".toList) = .ok (237 / 10) (552 / 10) := by
  constructor
  · obtain ⟨dial, disc, bat, notif, st, ft⟩ := env
    simp only [PollEnv.notification] at hreq
    subst hreq
    cases dial <;> cases disc <;> cases bat <;> simp [poll, hfail]
  · have hc : readTemperatureAndHumidity ("T=23.7 H=55.2".toList) =
        .ok (mkRat 237 10) (mkRat 552 10) := by decide
    rw [hc]
    norm_num [Rat.mkRat_eq_div]

/-- Witness for C7: the payload `T=abc H=55.2` fails to parse and the
otherwise-successful cycle emits nothing. -/
theorem parse_failure_aborts_poll_witness :
    poll "bedroom"
      { dialOk := true, discoverOk := true, battery := some 50,
        notification := some ("T=abc H=55.2".toList), startTime := 0, finishTime := 9 } =
      none ∧
    readTemperatureAndHumidity ("T=23.7 H=55.2".toList) = .ok (237 / 10) (552 / 10) :=
  parse_failure_aborts_poll "bedroom" _ ("T=abc H=55.2".toList) rfl (by decide)

/-! Section: listener routing (C8). -/

/-- Updating one address leaves lookups at other addresses unchanged. -/
theorem lookup_updateSensor_ne (addr x : String) (v : SensorInfo) (st : ScanState)
    (hx : x ≠ addr) : (updateSensor addr v st).lookup x = st.lookup x := by
  induction st with
  | nil => rfl
  | cons kv rest ih =>
    obtain ⟨k, w⟩ := kv
    by_cases hk : k = addr
    · subst hk
      simp [updateSensor, List.lookup, beq_false_of_ne hx]
    · simp [updateSensor, hk, List.lookup, ih]

/-- Updating a present address makes lookup return the new entry. -/
theorem lookup_updateSensor_self (addr : String) (v w : SensorInfo) (st : ScanState)
    (h : st.lookup addr = some w) : (updateSensor addr v st).lookup addr = some v := by
  induction st with
  | nil => simp [List.lookup] at h
  | cons kv rest ih =>
    obtain ⟨k, u⟩ := kv
    by_cases hk : k = addr
    · subst hk
      simp [updateSensor, List.lookup]
    · simp only [List.lookup_cons, updateSensor, if_neg hk] at h ⊢
      rw [beq_false_of_ne (Ne.symm hk)] at h ⊢
      exact ih h

/-- C8: an advertisement from an unconfigured address leaves the whole state
untouched (no decode, no merge); one from a configured address folds each
service-data block through that device's decoder into that device's
accumulator and touches no other device's entry. -/
theorem listener_routing (st : ScanState) (a : Adv) :
    (st.lookup a.addr = none → scanStep st a = some st) ∧
    (∀ info st2, st.lookup a.addr = some info → scanStep st a = some st2 →
      (∃ d, processBlocks info.stype info.data a.serviceData = some d ∧
        st2.lookup a.addr = some { info with data := d }) ∧
      ∀ x, x ≠ a.addr → st2.lookup x = st.lookup x) := by
  constructor
  · intro hnone
    simp [scanStep, advFilter, hnone]
  · intro info st2 hsome hstep
    simp only [scanStep, advFilter, hsome, Option.isSome_some, if_pos, advHandler] at hstep
    obtain ⟨d, hd, hst2⟩ := Option.map_eq_some'.mp hstep
    subst hst2
    refine ⟨⟨d, hd, lookup_updateSensor_self _ _ info st hsome⟩, ?_⟩
    intro x hx
    exact lookup_updateSensor_ne _ _ _ _ hx

/-- Witness for C8: an advertisement from unconfigured `bb` leaves the state
unchanged, and handling `demoAdv` leaves the lookup at `bb` unchanged. -/
theorem listener_routing_witness :
    scanStep demoState (Adv.mk "bb" [[1, 2, 3]]) = some demoState ∧
    demoState2.lookup "bb" = demoState.lookup "bb" :=
  ⟨(listener_routing demoState (Adv.mk "bb" [[1, 2, 3]])).1 (by decide),
   ((listener_routing demoState demoAdv).2 (SensorInfo.mk "room" .lywsd03mmc emptyData)
       demoState2 (by decide) (by decide)).2 "bb" (by decide)⟩

/-! Section: poller serialization (C9). -/

/-- Lock invariant: in every reachable state, a poller inside its cycle is
the lock owner. -/
theorem pollerLockInv (n : ℕ) (s : PollerSys n) (hs : PollerReachable n s) :
    ∀ i : Fin n, (s.pc i).inCycle = true → s.lockOwner = some i := by
  induction hs with
  | start =>
    intro i hi
    simp [startSys, PollerPC.inCycle] at hi
  | tail hr hstep ih =>
    intro i hi
    cases hstep with
    | acquire j hlock hj =>
      by_cases hij : i = j
      · subst hij
        rfl
      · dsimp only at hi
        rw [Function.update_noteq hij] at hi
        have hown := ih i hi
        rw [hlock] at hown
        exact Option.noConfusion hown
    | advance j next hlock hnext =>
      by_cases hij : i = j
      · subst hij
        rfl
      · dsimp only at hi
        rw [Function.update_noteq hij] at hi
        have hown := ih i hi
        rw [hlock] at hown
        exact absurd (Option.some.inj hown).symm hij
    | release j hlock hj =>
      by_cases hij : i = j
      · subst hij
        dsimp only at hi
        rw [Function.update_same] at hi
        simp [PollerPC.inCycle] at hi
      · dsimp only at hi
        rw [Function.update_noteq hij] at hi
        have hown := ih i hi
        rw [hlock] at hown
        exact absurd (Option.some.inj hown).symm hij

/-- C9: in every reachable state of the poller system, two distinct pollers
are never both inside their poll cycles — the process-wide `mutex`
serializes entire cycles, so a second cycle cannot begin before the first
releases the lock. -/
theorem poll_cycles_serialized (n : ℕ) (s : PollerSys n) (hs : PollerReachable n s)
    (i j : Fin n) (hij : i ≠ j) (hi : (s.pc i).inCycle = true) :
    (s.pc j).inCycle = false := by
  cases hcyc : (s.pc j).inCycle
  · rfl
  · have h1 := pollerLockInv n s hs i hi
    have h2 := pollerLockInv n s hs j hcyc
    rw [h1] at h2
    exact absurd (Option.some.inj h2) hij

/-- Witness for C9: with poller 0 mid-cycle in a reachable two-poller state,
poller 1 is outside its cycle. -/
theorem poll_cycles_serialized_witness :
    (demoPollerState.pc 1).inCycle = false :=
  poll_cycles_serialized 2 demoPollerState
    (PollerReachable.tail PollerReachable.start
      (PollerStep.acquire (startSys 2) 0 rfl rfl))
    0 1 (by decide) (by decide)

/-! Section: positional notification parsing (C10). -/

/-- Splitting never yields an empty list of segments. -/
theorem splitOnSep_ne_nil (sep : Char) (cs : List Char) : splitOnSep sep cs ≠ [] := by
  cases cs with
  | nil => simp [splitOnSep]
  | cons c rest =>
    simp only [splitOnSep]
    split
    · simp
    · split <;> simp

/-- A segment free of the separator splits to itself alone. -/
theorem splitOnSep_of_not_mem (sep : Char) (cs : List Char) (h : sep ∉ cs) :
    splitOnSep sep cs = [cs] := by
  induction cs with
  | nil => rfl
  | cons c rest ih =>
    have hc : c ≠ sep := by
      rintro rfl
      exact h (List.mem_cons_self _ _)
    have hrest : sep ∉ rest := fun hm => h (List.mem_cons_of_mem _ hm)
    simp only [splitOnSep, ih hrest]
    simp [hc]

/-- Splitting at the first separator occurrence peels off the prefix. -/
theorem splitOnSep_append (sep : Char) (xs ys : List Char) (h : sep ∉ xs) :
    splitOnSep sep (xs ++ sep :: ys) = xs :: splitOnSep sep ys := by
  induction xs with
  | nil =>
    simp only [List.nil_append, splitOnSep]
    rcases hys : splitOnSep sep ys with _ | ⟨g, gs⟩
    · exact absurd hys (splitOnSep_ne_nil sep ys)
    · simp
  | cons c rest ih =>
    have hc : c ≠ sep := by
      rintro rfl
      exact h (List.mem_cons_self _ _)
    have hrest : sep ∉ rest := fun hm => h (List.mem_cons_of_mem _ hm)
    simp only [List.cons_append, splitOnSep, List.append_eq]
    rw [ih hrest]
    simp [hc]

/-- The `dropWhile` of a list is the identity when no element satisfies the predicate. -/
theorem dropWhile_id_of_all_false (p : Char → Bool) (cs : List Char)
    (h : ∀ c ∈ cs, p c = false) : cs.dropWhile p = cs := by
  cases cs with
  | nil => rfl
  | cons c rest => simp [List.dropWhile, h c (List.mem_cons_self _ _)]

/-- Trimming NULs from a payload that contains none is the identity. -/
theorem trimNul_id (cs : List Char) (h : nulChar ∉ cs) : trimNul cs = cs := by
  have hall : ∀ c ∈ cs, decide (c = nulChar) = false := by
    intro c hc
    simp only [decide_eq_false_iff_not]
    rintro rfl
    exact h hc
  unfold trimNul
  rw [dropWhile_id_of_all_false _ cs hall,
    dropWhile_id_of_all_false _ _ (fun c hc => hall c (List.mem_reverse.mp hc)),
    List.reverse_reverse]

/-- A character distinct from `=` and absent from key and value is absent
from the whole `KEY=VALUE` pair. -/
theorem not_mem_pair (c : Char) (k v : List Char) (hce : c ≠ '=') (hk : c ∉ k)
    (hv : c ∉ v) : c ∉ k ++ '=' :: v := by
  intro hmem
  rcases List.mem_append.mp hmem with h | h
  · exact hk h
  · rcases List.mem_cons.mp h with h | h
    · exact hce h
    · exact hv h

/-- C10: the parser assigns by position, never reading key text — for any
two `KEY=VALUE` pairs with parseable values, the first pair's value becomes
`res[0]` (temperature) and the second `res[1]` (humidity), whatever the
keys; in particular `H=55.2 T=23.7` yields temperature 55.2 and humidity
23.7. -/
theorem positional_parse (k1 k2 v1 v2 : List Char) (q1 q2 : ℚ)
    (hk1s : ' ' ∉ k1) (hk1e : '=' ∉ k1) (hk1n : nulChar ∉ k1)
    (hk2s : ' ' ∉ k2) (hk2e : '=' ∉ k2) (hk2n : nulChar ∉ k2)
    (hv1s : ' ' ∉ v1) (hv1e : '=' ∉ v1) (hv1n : nulChar ∉ v1)
    (hv2s : ' ' ∉ v2) (hv2e : '=' ∉ v2) (hv2n : nulChar ∉ v2)
    (hp1 : parseFloat v1 = some q1) (hp2 : parseFloat v2 = some q2) :
    readTemperatureAndHumidity ((k1 ++ '=' :: v1) ++ ' ' :: (k2 ++ '=' :: v2)) =
      .ok q1 q2 ∧
    readTemperatureAndHumidity ("H=55.2 T=23.7".toList) = .ok (552 / 10) (237 / 10) := by
  constructor
  · have hnul : nulChar ∉ (k1 ++ '=' :: v1) ++ ' ' :: (k2 ++ '=' :: v2) := by
      intro hmem
      rcases List.mem_append.mp hmem with h | h
      · exact not_mem_pair nulChar k1 v1 (by decide) hk1n hv1n h
      · rcases List.mem_cons.mp h with h | h
        · exact absurd h (by decide)
        · exact not_mem_pair nulChar k2 v2 (by decide) hk2n hv2n h
    have hs1 : ' ' ∉ k1 ++ '=' :: v1 := not_mem_pair ' ' k1 v1 (by decide) hk1s hv1s
    have hs2 : ' ' ∉ k2 ++ '=' :: v2 := not_mem_pair ' ' k2 v2 (by decide) hk2s hv2s
    have e1 : (splitOnSep '=' (k1 ++ '=' :: v1))[1]? = some v1 := by
      rw [splitOnSep_append '=' k1 v1 hk1e, splitOnSep_of_not_mem '=' v1 hv1e]
      rfl
    have e2 : (splitOnSep '=' (k2 ++ '=' :: v2))[1]? = some v2 := by
      rw [splitOnSep_append '=' k2 v2 hk2e, splitOnSep_of_not_mem '=' v2 hv2e]
      rfl
    unfold readTemperatureAndHumidity
    rw [trimNul_id _ hnul, splitOnSep_append ' ' _ _ hs1,
      splitOnSep_of_not_mem ' ' _ hs2]
    simp [readTHLoop, e1, e2, hp1, hp2]
  · have hc : readTemperatureAndHumidity ("H=55.2 T=23.7".toList) =
        .ok (mkRat 552 10) (mkRat 237 10) := by decide
    rw [hc]
    norm_num [Rat.mkRat_eq_div]

/-- Witness for C10: keys `H` then `T` with numeric values — the first
value lands in the temperature slot regardless of its key. -/
theorem positional_parse_witness :
    readTemperatureAndHumidity ((['H'] ++ '=' :: "55.2".toList) ++
        ' ' :: (['T'] ++ '=' :: "23.7".toList)) =
      .ok (mkRat 552 10) (mkRat 237 10) :=
  (positional_parse ['H'] ['T'] ("55.2".toList) ("23.7".toList)
    (mkRat 552 10) (mkRat 237 10)
    (by decide) (by decide) (by decide) (by decide) (by decide) (by decide)
    (by decide) (by decide) (by decide) (by decide) (by decide) (by decide)
    (by decide) (by decide)).1

end Mijiamon
